import Mathlib

set_option autoImplicit false

/-!
Verification of the ruby-libvirt binding layer (ext/libvirt/connect.c and
ext/libvirt/domain.c) against its natural-language specification: the
two-phase size-discovery queries, the typed-parameter codec, and the
domain-event callback dispatch adapters.

The C functions are embedded shallowly: each underlying libvirt entry point
is abstracted as an oracle recording the outcomes of the calls one invocation
performs, and each binding function becomes a pure Lean function from its
arguments and oracle to the Ruby-level result together with the list of
underlying calls it made, in order.
-/

namespace RubyLibvirt

/-- A Ruby VALUE, as far as the embedded binding functions construct and
inspect them: nil, integers, strings, symbols, procs, wrapped
Libvirt::Connect and Libvirt::Domain objects, hashes and arrays. -/
inductive RValue where
  | vnil
  | vint (n : Int)
  | vstr (s : String)
  | vsym (name : String)
  | vproc (id : Nat)
  | vconn (handle : Nat)
  | vdom (handle : Nat) (connHandle : Nat)
  | vhash (entries : List (String × RValue))
  | vary (elems : List RValue)

/-- Exceptions the binding raises: rb_raise with TypeError or ArgumentError,
rb_exc_raise of create_error(e_RetrieveError, op, conn), and a Ruby
exception escaping an rb_protect-guarded conversion (rb_jump_tag). -/
inductive RubyError where
  | typeError (msg : String)
  | argError (msg : String)
  | retrieveError (op : String)
  | conversionRaised
  deriving DecidableEq

/-- One underlying call or buffer action a two-phase query performs.
probe is the counting call (virConnectNumOfX, virDomainSnapshotNum, or the
get_stats callback with NULL params); fetch is the second call carrying a
buffer of the given capacity; alloc and free are the heap allocation
(ALLOC_N in the alloc_stats callback) and release (xfree) of that buffer. -/
inductive CallEvent where
  | probe
  | fetch (capacity : Nat)
  | alloc (size : Nat)
  | free
  deriving DecidableEq

/-- True exactly on a fetch (phase-2) event. -/
def CallEvent.isFetch : CallEvent → Bool
  | .fetch _ => true
  | _ => false

/-- True exactly on a buffer-allocation event. -/
def CallEvent.isAlloc : CallEvent → Bool
  | .alloc _ => true
  | _ => false

/-- True exactly on a buffer-release event. -/
def CallEvent.isFree : CallEvent → Bool
  | .free => true
  | _ => false

/-! ## Two-phase name-list queries

gen_conn_list_names (connect.c:36-52) and libvirt_dom_list_snapshots
(domain.c:1433-1465) share one shape: a counting call, an early return on
count 0, an alloca-backed names buffer of count slots, the listing call, and
gen_list over the buffer and the phase-1 count. -/

/-- Outcomes of the underlying subsystem for one name-list query: the return
value of the counting call (negative signals failure), and the outcome of
the listing call (failure, or the names it actually wrote into the buffer;
the listing call returns the number it wrote). -/
structure ListOracle where
  numOf : Int
  fetchResult : Except Unit (List String)

/-- The alloca-backed names buffer after the listing call: num slots, the
first written.length of them holding the names the subsystem wrote, the
rest still uninitialized (modelled as none). -/
def namesBuffer (num : Nat) (written : List String) : List (Option String) :=
  (written.map some ++ List.replicate num none).take num

/-- Modelled from the spec: gen_list lives in common.c, which is not under
src/. Per the comment on the macro (connect.c:30-35) the names buffer is
returned as a Ruby array; gen_list builds that array from exactly count
buffer slots. -/
def gen_list (count : Nat) (buf : List (Option String)) : List (Option String) :=
  buf.take count

/-- connect.c:36-52, the gen_conn_list_names macro: num = virConnectNumOfX;
raise e_RetrieveError if num is negative; return an empty array if num is 0
without calling virConnectListX; otherwise alloca a num-slot buffer, call
virConnectListX(names, num), raise on failure, and return
gen_list(num, names). objs is the macro token naming the object kind. -/
def gen_conn_list_names (objs : String) (o : ListOracle) :
    Except RubyError (List (Option String)) × List CallEvent :=
  if o.numOf < 0 then
    (.error (.retrieveError ("virConnectNumOf" ++ objs)), [.probe])
  else if o.numOf = 0 then
    (.ok [], [.probe])
  else
    let num := o.numOf.toNat
    match o.fetchResult with
    | .error _ =>
        (.error (.retrieveError ("virConnectList" ++ objs)), [.probe, .fetch num])
    | .ok written =>
        (.ok (gen_list num (namesBuffer num written)), [.probe, .fetch num])

/-- domain.c:1433-1465, libvirt_dom_list_snapshots: num =
virDomainSnapshotNum(dom, 0); raise e_RetrieveError if num is negative;
return an empty array if num is 0 without calling
virDomainSnapshotListNames; otherwise alloca a num-slot buffer, call
virDomainSnapshotListNames(dom, names, num, flags), raise on failure, and
return gen_list(num, names). The flags argument is absorbed into the
oracle. -/
def libvirt_dom_list_snapshots (o : ListOracle) :
    Except RubyError (List (Option String)) × List CallEvent :=
  if o.numOf < 0 then
    (.error (.retrieveError "virDomainSnapshotNum"), [.probe])
  else if o.numOf = 0 then
    (.ok [], [.probe])
  else
    let num := o.numOf.toNat
    match o.fetchResult with
    | .error _ =>
        (.error (.retrieveError "virDomainSnapshotListNames"), [.probe, .fetch num])
    | .ok written =>
        (.ok (gen_list num (namesBuffer num written)), [.probe, .fetch num])

/-- domain.c:2381-2440, libvirt_dom_snapshot_list_children_names: probe
with virDomainSnapshotNumChildren and raise e_RetrieveError on a negative
count — but with no zero-count guard: the function then unconditionally
allocas a num_children-slot buffer and calls
virDomainSnapshotListChildrenNames on it (domain.c:2404-2409), raising on
failure; the result array is built from the first ret names, ret being
the second call's return — the number of names it wrote. The rb_protect
guard around string conversion (domain.c:2414-2428), which only frees the
remaining names and re-raises a Ruby exception, is not modelled. -/
def libvirt_dom_snapshot_list_children_names (o : ListOracle) :
    Except RubyError (List (Option String)) × List CallEvent :=
  if o.numOf < 0 then
    (.error (.retrieveError "virDomainSnapshotNumChildren"), [.probe])
  else
    let num := o.numOf.toNat
    match o.fetchResult with
    | .error _ =>
        (.error (.retrieveError "virDomainSnapshotListChildrenNames"),
         [.probe, .fetch num])
    | .ok written =>
        (.ok ((namesBuffer num written).take written.length),
         [.probe, .fetch num])

/-! ## The generic statistics two-phase query

internal_get_stats (connect.c:2075-2142) drives the get_stats callback
twice: first with NULL params and nparams = 0 to learn the count, then with
a freshly allocated params array, finally converting each of the (updated)
nparams entries into the result hash under rb_protect. -/

/-- One slot of the params array the stats callbacks fill: a field name and
an unsigned long long value (virNodeCPUStats or virNodeMemoryStats). -/
structure StatEntry where
  field : String
  value : Nat
  deriving DecidableEq

/-- Outcomes of the get_stats callback across the two calls of one
invocation: the probing call returns an error name or the count it stored
into nparams; the fetching call returns an error name or the updated
nparams together with the contents of the params array it filled. The
fixed conn, intparam and flags arguments are absorbed into the oracle. -/
structure StatsOracle where
  probe : Except String Nat
  fetch : Except String (Nat × List StatEntry)

/-- The conversion loop of internal_get_stats (connect.c:2128-2137): apply
the hash_set callback to each consumed entry in order, threading the result
hash; an error models a Ruby exception caught by rb_protect. -/
def hash_set_loop {α : Type} (hash_set : α → StatEntry → Except Unit α) :
    α → List StatEntry → Except Unit α
  | h, [] => .ok h
  | h, e :: rest =>
    match hash_set h e with
    | .error u => .error u
    | .ok h2 => hash_set_loop hash_set h2 rest

/-- connect.c:2075-2142, internal_get_stats: probe with NULL params; raise
e_RetrieveError(errname) on failure; return the fresh empty hash if nparams
is 0; otherwise alloc_stats(nparams), fetch into the buffer (which updates
nparams), xfree and raise on failure; run hash_set over the first (updated)
nparams entries, xfree and propagate if a conversion raises; xfree and
return the hash. empty_hash is the rb_hash_new() value and the hash type α
together with hash_set abstract the per-caller alloc_stats and hash_set
callbacks. -/
def internal_get_stats {α : Type} (empty_hash : α)
    (hash_set : α → StatEntry → Except Unit α) (o : StatsOracle) :
    Except RubyError α × List CallEvent :=
  match o.probe with
  | .error errname => (.error (.retrieveError errname), [.probe])
  | .ok nparams =>
    if nparams = 0 then
      (.ok empty_hash, [.probe])
    else
      match o.fetch with
      | .error errname =>
          (.error (.retrieveError errname),
           [.probe, .alloc nparams, .fetch nparams, .free])
      | .ok (nparams2, params) =>
          match hash_set_loop hash_set empty_hash (params.take nparams2) with
          | .error _ =>
              (.error .conversionRaised,
               [.probe, .alloc nparams, .fetch nparams, .free])
          | .ok result =>
              (.ok result,
               [.probe, .alloc nparams, .fetch nparams, .free])

/-- Ruby hash assignment rb_hash_aset: replace the value in place when the
key is already present, append the pair otherwise. -/
def rb_hash_aset (h : List (String × RValue)) (k : String) (v : RValue) :
    List (String × RValue) :=
  if h.any (fun p => p.1 = k) then
    h.map (fun p => if p.1 = k then (k, v) else p)
  else
    h ++ [(k, v)]

/-- connect.c:2151-2160, cpu_hash_set: result[field] = ULL2NUM(value) for
one params slot (memory_hash_set at connect.c:2192-2199 is identical). -/
def cpu_hash_set (h : List (String × RValue)) (e : StatEntry) :
    Except Unit (List (String × RValue)) :=
  .ok (rb_hash_aset h e.field (.vint (e.value : Int)))

/-! ## Domain-event callback adapters

Each adapter (connect.c:489-804) receives the raw libvirt event plus the
passthrough array [cb, opaque] stored at registration, type-checks the
passthrough, and invokes the user callback cb positionally: via
rb_funcall(rb_class_of(cb), rb_to_id(cb), n, args...) when cb is a Symbol
and rb_funcall(cb, call, n, args...) when cb is a Proc. Both variants pass
the same positional argument list, recorded here as a list of RValues. The
adapter result is the Ruby-level outcome (the adapter returns int 0, or
raises) together with the list of user-callback invocations it performed:
each invocation is the callback object and its positional arguments. -/

/-- Ruby rb_obj_classname restricted to the embedded VALUE shapes; the
adapters only ever compare it against Symbol and Proc. -/
def rb_obj_classname : RValue → String
  | .vnil => "NilClass"
  | .vint _ => "Integer"
  | .vstr _ => "String"
  | .vsym _ => "Symbol"
  | .vproc _ => "Proc"
  | .vconn _ => "Libvirt::Connect"
  | .vdom _ _ => "Libvirt::Domain"
  | .vhash _ => "Hash"
  | .vary _ => "Array"

/-- rb_ary_entry: element at an index, nil when out of range. -/
def rb_ary_entry (elems : List RValue) (i : Nat) : RValue :=
  elems.getD i .vnil

/-- connect.c:489-527, domain_event_lifecycle_callback: check the
passthrough is a 2-element Array, rebuild the Connect and Domain wrappers,
and call the user callback with the 5 positional arguments
(connection, domain, event, detail, opaque); raise TypeError when the
callback is neither Symbol nor Proc. -/
def domain_event_lifecycle_callback (conn dom : Nat) (event detail : Int)
    (passthrough : RValue) :
    Except RubyError Int × List (RValue × List RValue) :=
  match passthrough with
  | .vary elems =>
    if elems.length ≠ 2 then
      (.error (.argError "wrong number of arguments"), [])
    else
      let cb := rb_ary_entry elems 0
      let cb_data := rb_ary_entry elems 1
      let newc := RValue.vconn conn
      if rb_obj_classname cb = "Symbol" then
        (.ok 0, [(cb, [newc, .vdom dom conn, .vint event, .vint detail, cb_data])])
      else if rb_obj_classname cb = "Proc" then
        (.ok 0, [(cb, [newc, .vdom dom conn, .vint event, .vint detail, cb_data])])
      else
        (.error (.typeError
          "wrong domain event lifecycle callback (expected Symbol or Proc)"), [])
  | _ =>
    (.error (.typeError
      "wrong domain event lifecycle callback argument type (expected Array)"), [])

/-- connect.c:607-643, domain_event_watchdog_callback: same shape with the
4 positional arguments (connection, domain, action, opaque). -/
def domain_event_watchdog_callback (conn dom : Nat) (action : Int)
    (passthrough : RValue) :
    Except RubyError Int × List (RValue × List RValue) :=
  match passthrough with
  | .vary elems =>
    if elems.length ≠ 2 then
      (.error (.argError "wrong number of arguments"), [])
    else
      let cb := rb_ary_entry elems 0
      let cb_data := rb_ary_entry elems 1
      let newc := RValue.vconn conn
      if rb_obj_classname cb = "Symbol" then
        (.ok 0, [(cb, [newc, .vdom dom conn, .vint action, cb_data])])
      else if rb_obj_classname cb = "Proc" then
        (.ok 0, [(cb, [newc, .vdom dom conn, .vint action, cb_data])])
      else
        (.error (.typeError
          "wrong domain event watchdog callback (expected Symbol or Proc)"), [])
  | _ =>
    (.error (.typeError
      "wrong domain event watchdog callback argument type (expected Array)"), [])

/-- connect.c:531-567, domain_event_reboot_callback: same shape with the
3 positional arguments (connection, domain, opaque). -/
def domain_event_reboot_callback (conn dom : Nat) (passthrough : RValue) :
    Except RubyError Int × List (RValue × List RValue) :=
  match passthrough with
  | .vary elems =>
    if elems.length ≠ 2 then
      (.error (.argError "wrong number of arguments"), [])
    else
      let cb := rb_ary_entry elems 0
      let cb_data := rb_ary_entry elems 1
      let newc := RValue.vconn conn
      if rb_obj_classname cb = "Symbol" then
        (.ok 0, [(cb, [newc, .vdom dom conn, cb_data])])
      else if rb_obj_classname cb = "Proc" then
        (.ok 0, [(cb, [newc, .vdom dom conn, cb_data])])
      else
        (.error (.typeError
          "wrong domain event reboot callback (expected Symbol or Proc)"), [])
  | _ =>
    (.error (.typeError
      "wrong domain event reboot callback argument type (expected Array)"), [])

/-- connect.c:569-605, domain_event_rtc_callback: same shape with the 4
positional arguments (connection, domain, utc_offset, opaque). -/
def domain_event_rtc_callback (conn dom : Nat) (utc_offset : Int)
    (passthrough : RValue) :
    Except RubyError Int × List (RValue × List RValue) :=
  match passthrough with
  | .vary elems =>
    if elems.length ≠ 2 then
      (.error (.argError "wrong number of arguments"), [])
    else
      let cb := rb_ary_entry elems 0
      let cb_data := rb_ary_entry elems 1
      let newc := RValue.vconn conn
      if rb_obj_classname cb = "Symbol" then
        (.ok 0, [(cb, [newc, .vdom dom conn, .vint utc_offset, cb_data])])
      else if rb_obj_classname cb = "Proc" then
        (.ok 0, [(cb, [newc, .vdom dom conn, .vint utc_offset, cb_data])])
      else
        (.error (.typeError
          "wrong domain event rtc callback (expected Symbol or Proc)"), [])
  | _ =>
    (.error (.typeError
      "wrong domain event rtc callback argument type (expected Array)"), [])

/-- connect.c:645-686, domain_event_io_error_callback: same shape with the
6 positional arguments (connection, domain, src_path, dev_alias, action,
opaque). -/
def domain_event_io_error_callback (conn dom : Nat)
    (src_path dev_alias : String) (action : Int) (passthrough : RValue) :
    Except RubyError Int × List (RValue × List RValue) :=
  match passthrough with
  | .vary elems =>
    if elems.length ≠ 2 then
      (.error (.argError "wrong number of arguments"), [])
    else
      let cb := rb_ary_entry elems 0
      let cb_data := rb_ary_entry elems 1
      let newc := RValue.vconn conn
      if rb_obj_classname cb = "Symbol" then
        (.ok 0, [(cb, [newc, .vdom dom conn, .vstr src_path, .vstr dev_alias,
                       .vint action, cb_data])])
      else if rb_obj_classname cb = "Proc" then
        (.ok 0, [(cb, [newc, .vdom dom conn, .vstr src_path, .vstr dev_alias,
                       .vint action, cb_data])])
      else
        (.error (.typeError
          "wrong domain event IO error callback (expected Symbol or Proc)"), [])
  | _ =>
    (.error (.typeError
      "wrong domain event IO error callback argument type (expected Array)"), [])

/-- connect.c:688-732, domain_event_io_error_reason_callback: same shape
with the 7 positional arguments (connection, domain, src_path, dev_alias,
action, reason, opaque). -/
def domain_event_io_error_reason_callback (conn dom : Nat)
    (src_path dev_alias : String) (action : Int) (reason : String)
    (passthrough : RValue) :
    Except RubyError Int × List (RValue × List RValue) :=
  match passthrough with
  | .vary elems =>
    if elems.length ≠ 2 then
      (.error (.argError "wrong number of arguments"), [])
    else
      let cb := rb_ary_entry elems 0
      let cb_data := rb_ary_entry elems 1
      let newc := RValue.vconn conn
      if rb_obj_classname cb = "Symbol" then
        (.ok 0, [(cb, [newc, .vdom dom conn, .vstr src_path, .vstr dev_alias,
                       .vint action, .vstr reason, cb_data])])
      else if rb_obj_classname cb = "Proc" then
        (.ok 0, [(cb, [newc, .vdom dom conn, .vstr src_path, .vstr dev_alias,
                       .vint action, .vstr reason, cb_data])])
      else
        (.error (.typeError
          "wrong domain event IO error reason callback (expected Symbol or Proc)"), [])
  | _ =>
    (.error (.typeError
      "wrong domain event IO error reason callback argument type (expected Array)"), [])

/-- One endpoint of a graphics connection
(virDomainEventGraphicsAddress). -/
structure GraphicsAddress where
  family : Int
  node : String
  service : String

/-- One claimed identity on a graphics event
(virDomainEventGraphicsSubjectIdentity): its type and name. -/
structure GraphicsSubjectIdentity where
  type : String
  name : String

/-- The Ruby hash the graphics adapter builds for one endpoint
(connect.c:765-775). -/
def graphicsAddressHash (a : GraphicsAddress) : RValue :=
  .vhash [("family", .vint a.family), ("node", .vstr a.node),
          ("service", .vstr a.service)]

/-- The Ruby array the graphics adapter builds from the raw identity list
(connect.c:777-784): one [type, name] pair per identity, in order. -/
def graphicsSubjectArray (subject : List GraphicsSubjectIdentity) : RValue :=
  .vary (subject.map fun i => RValue.vary [.vstr i.type, .vstr i.name])

/-- connect.c:734-804, domain_event_graphics_callback: same shape with the
8 positional arguments (connection, domain, phase, local address hash,
remote address hash, authScheme, subject identity array, opaque). -/
def domain_event_graphics_callback (conn dom : Nat) (phase : Int)
    (laddr raddr : GraphicsAddress) (authScheme : String)
    (subject : List GraphicsSubjectIdentity) (passthrough : RValue) :
    Except RubyError Int × List (RValue × List RValue) :=
  match passthrough with
  | .vary elems =>
    if elems.length ≠ 2 then
      (.error (.argError "wrong number of arguments"), [])
    else
      let cb := rb_ary_entry elems 0
      let cb_data := rb_ary_entry elems 1
      let newc := RValue.vconn conn
      if rb_obj_classname cb = "Symbol" then
        (.ok 0, [(cb, [newc, .vdom dom conn, .vint phase,
                       graphicsAddressHash laddr, graphicsAddressHash raddr,
                       .vstr authScheme, graphicsSubjectArray subject,
                       cb_data])])
      else if rb_obj_classname cb = "Proc" then
        (.ok 0, [(cb, [newc, .vdom dom conn, .vint phase,
                       graphicsAddressHash laddr, graphicsAddressHash raddr,
                       .vstr authScheme, graphicsSubjectArray subject,
                       cb_data])])
      else
        (.error (.typeError
          "wrong domain event graphics callback (expected Symbol or Proc)"), [])
  | _ =>
    (.error (.typeError
      "wrong domain event graphics callback argument type (expected Array)"), [])

/-! ## Registration and deregistration -/

/-- libvirt virDomainEventID discriminants, the seven event kinds the
switch in libvirt_conn_domain_event_register_any recognizes
(connect.c:853-879), with the values of the virDomainEventID enum. -/
def VIR_DOMAIN_EVENT_ID_LIFECYCLE : Int := 0

/-- virDomainEventID value for reboot events. -/
def VIR_DOMAIN_EVENT_ID_REBOOT : Int := 1

/-- virDomainEventID value for RTC-change events. -/
def VIR_DOMAIN_EVENT_ID_RTC_CHANGE : Int := 2

/-- virDomainEventID value for watchdog events. -/
def VIR_DOMAIN_EVENT_ID_WATCHDOG : Int := 3

/-- virDomainEventID value for I O error events. -/
def VIR_DOMAIN_EVENT_ID_IO_ERROR : Int := 4

/-- virDomainEventID value for I O error events carrying a reason. -/
def VIR_DOMAIN_EVENT_ID_IO_ERROR_REASON : Int := 5

/-- virDomainEventID value for graphics events. -/
def VIR_DOMAIN_EVENT_ID_GRAPHICS : Int := 6

/-- Modelled from the spec: is_symbol_or_proc lives in common.c, which is
not under src/; it tests whether the callback VALUE is a Symbol or a
Proc. -/
def is_symbol_or_proc (cb : RValue) : Bool :=
  rb_obj_classname cb == "Symbol" || rb_obj_classname cb == "Proc"

/-- Outcome of the underlying virConnectDomainEventRegisterAny call: its
int return value, negative on failure, otherwise the callback id. -/
structure RegisterOracle where
  registerRet : Int

/-- connect.c:831-888, libvirt_conn_domain_event_register_any: raise
TypeError unless the callback is a Symbol or Proc; switch on the eventID,
raising ArgumentError on any value outside the seven known discriminants
before the underlying register call; otherwise build the passthrough and
invoke virConnectDomainEventRegisterAny through gen_call_int (modelled from
the spec, common.c being outside src/: raise e_RetrieveError on a negative
return, else return the int). The Bool records whether the underlying
register call was made. -/
def libvirt_conn_domain_event_register_any (eventID : Int) (cb : RValue)
    (dom : Option Nat) (o : RegisterOracle) : Except RubyError Int × Bool :=
  if ¬ is_symbol_or_proc cb then
    (.error (.typeError "wrong argument type (expected Symbol or Proc)"), false)
  else if eventID = VIR_DOMAIN_EVENT_ID_LIFECYCLE
       ∨ eventID = VIR_DOMAIN_EVENT_ID_REBOOT
       ∨ eventID = VIR_DOMAIN_EVENT_ID_RTC_CHANGE
       ∨ eventID = VIR_DOMAIN_EVENT_ID_WATCHDOG
       ∨ eventID = VIR_DOMAIN_EVENT_ID_IO_ERROR
       ∨ eventID = VIR_DOMAIN_EVENT_ID_IO_ERROR_REASON
       ∨ eventID = VIR_DOMAIN_EVENT_ID_GRAPHICS then
    if o.registerRet < 0 then
      (.error (.retrieveError "virConnectDomainEventRegisterAny"), true)
    else
      (.ok o.registerRet, true)
  else
    (.error (.argError "invalid eventID argument"), false)

/-- One active callback registration as the underlying subsystem tracks it:
the id handed back by register, the event kind, and the passthrough array
[cb, opaque] the adapters receive. The dom parameter of register_any is
irrelevant here. -/
structure CallbackRegistration where
  registrationId : Nat
  eventID : Int
  passthrough : RValue

/-- Delivery of one watchdog event to one registration: libvirt invokes the
adapter on the stored passthrough. The adapter body (connect.c:607-643)
contains no deregistration and no table mutation of any kind, so the
registration table is returned unchanged next to the adapter outcome. -/
def deliver_watchdog_event (tbl : List CallbackRegistration)
    (reg : CallbackRegistration) (conn dom : Nat) (action : Int) :
    List CallbackRegistration × (Except RubyError Int × List (RValue × List RValue)) :=
  (tbl, domain_event_watchdog_callback conn dom action reg.passthrough)

/-- Table-level error of the spec taxonomy: deregistration referenced an id
not currently registered. -/
inductive TableError where
  | unknownRegistration
  deriving DecidableEq

/-- Modelled from the spec: the registration table of the
CallbackDispatchTable state machine. virConnectDomainEventDeregisterAny
and gen_call_void live outside src/; per the spec a registration is
Registered or Deregistered, deregister(id) removes a registered id and
fails with UnknownRegistrationError on an id not currently registered.
The table is the list of currently registered ids. -/
def deregisterCallback (tbl : List Nat) (callbackID : Nat) :
    Except TableError (List Nat) :=
  if callbackID ∈ tbl then .ok (tbl.erase callbackID)
  else .error .unknownRegistration

/-- connect.c:898-903, libvirt_conn_domain_event_deregister_any: forward
the callbackID to virConnectDomainEventDeregisterAny through gen_call_void
(modelled from the spec, common.c being outside src/): raise
e_RetrieveError when the underlying deregister fails, return the shrunken
table otherwise. -/
def libvirt_conn_domain_event_deregister_any (tbl : List Nat)
    (callbackID : Nat) : Except RubyError (List Nat) :=
  match deregisterCallback tbl callbackID with
  | .ok t => .ok t
  | .error _ => .error (.retrieveError "virConnectDomainEventDeregisterAny")

/-! ## The typed-parameter codec

The raw record struct _virTypedParameter is declared at domain.c:44-59: a
bounded name, an int type tag, and a union whose string arm may not be
NULL. The codec itself (decode in get_parameters, encode in set_parameters)
lives in common.c, which is not under src/, so its operations are modelled
from the spec, section 4.1. -/

/-- virTypedParameterType tag for the int arm (domain.c:36-42). -/
def VIR_TYPED_PARAM_INT : Int := 1

/-- virTypedParameterType tag for the unsigned int arm. -/
def VIR_TYPED_PARAM_UINT : Int := 2

/-- virTypedParameterType tag for the long long arm. -/
def VIR_TYPED_PARAM_LLONG : Int := 3

/-- virTypedParameterType tag for the unsigned long long arm. -/
def VIR_TYPED_PARAM_ULLONG : Int := 4

/-- virTypedParameterType tag for the double arm. -/
def VIR_TYPED_PARAM_DOUBLE : Int := 5

/-- virTypedParameterType tag for the boolean arm. -/
def VIR_TYPED_PARAM_BOOLEAN : Int := 6

/-- virTypedParameterType tag for the string arm (domain.c:42). -/
def VIR_TYPED_PARAM_STRING : Int := 7

/-- Capacity of the field name, domain.c:44. -/
def VIR_TYPED_PARAM_FIELD_LENGTH : Nat := 80

/-- The active arm of the value union of struct _virTypedParameter
(domain.c:49-57): int i, unsigned int ui, long long l, unsigned long long
ul, double d (kept as its bit pattern, which the codec copies verbatim),
char b, and char *s which may be NULL (none). -/
inductive TypedParamPayload where
  | pInt (v : Int)
  | pUInt (v : Nat)
  | pLLong (v : Int)
  | pULLong (v : Nat)
  | pDouble (bits : Nat)
  | pBool (v : Nat)
  | pStr (s : Option String)
  deriving DecidableEq

/-- struct _virTypedParameter, domain.c:46-58: field name, type tag, value
union. -/
structure VirTypedParameter where
  field : String
  type : Int
  value : TypedParamPayload
  deriving DecidableEq

/-- The type tag that matches the active arm of a union value. -/
def payloadTag : TypedParamPayload → Int
  | .pInt _ => VIR_TYPED_PARAM_INT
  | .pUInt _ => VIR_TYPED_PARAM_UINT
  | .pLLong _ => VIR_TYPED_PARAM_LLONG
  | .pULLong _ => VIR_TYPED_PARAM_ULLONG
  | .pDouble _ => VIR_TYPED_PARAM_DOUBLE
  | .pBool _ => VIR_TYPED_PARAM_BOOLEAN
  | .pStr _ => VIR_TYPED_PARAM_STRING

/-- The invariant of the raw record (spec section 3 and the comments at
domain.c:47-57): the active union arm matches the type tag, and a
string-tagged record never carries a NULL payload. -/
def typedParamWellFormed (r : VirTypedParameter) : Prop :=
  r.type = payloadTag r.value ∧ r.value ≠ .pStr none

/-- Modelled from the spec: the payload of one high-level TypedValue
(spec section 3), a sum over the seven native representations. The string
payload mirrors the char pointer of the raw side, so it may be missing. -/
inductive ParamPayload where
  | int32 (v : Int)
  | uint32 (v : Nat)
  | int64 (v : Int)
  | uint64 (v : Nat)
  | double (bits : Nat)
  | boolean (b : Bool)
  | string (s : Option String)
  deriving DecidableEq

/-- Modelled from the spec: one high-level TypedValue, a bounded-length
name together with a typed payload; the kind of spec section 3 is the
payload constructor. -/
structure TypedValue where
  name : String
  payload : ParamPayload
  deriving DecidableEq

/-- Whether a payload is within its native representation range (spec
section 3: the payload holds the native 32- or 64-bit representation).
Encoding wraps at the boundary, so this is exactly the condition under
which encoding copies the numeric value unchanged. -/
def ParamPayload.inRange : ParamPayload → Bool
  | .int32 v => decide (-(2 : Int) ^ 31 ≤ v) && decide (v < 2 ^ 31)
  | .uint32 v => decide (v < 2 ^ 32)
  | .int64 v => decide (-(2 : Int) ^ 63 ≤ v) && decide (v < 2 ^ 63)
  | .uint64 v => decide (v < 2 ^ 64)
  | .double _ => true
  | .boolean _ => true
  | .string _ => true

/-- Two's-complement wraparound to 32-bit signed. -/
def wrap32s (v : Int) : Int := (v + 2 ^ 31) % 2 ^ 32 - 2 ^ 31

/-- Two's-complement wraparound to 64-bit signed. -/
def wrap64s (v : Int) : Int := (v + 2 ^ 63) % 2 ^ 64 - 2 ^ 63

/-- Errors of the codec, spec section 7: DecodeError for a malformed or
unknown-kind raw record, NameTooLongError for a name over the bounded
capacity, InvalidValueError for a String-kind entry holding no string. -/
inductive CodecError where
  | decodeError (tag : Int)
  | nameTooLong (name : String)
  | invalidValue (name : String)
  deriving DecidableEq

/-- Modelled from the spec (section 4.1, encode; common.c is outside src/):
write the name, failing with NameTooLongError when it does not fit the
80-byte field with its terminator; write the kind tag and the matching
union arm, wrapping numerics two's-complement at the boundary, writing
booleans as exactly 0 or 1, and failing with InvalidValueError for a
String-kind entry holding no string. -/
def encode1 (p : TypedValue) : Except CodecError VirTypedParameter :=
  if VIR_TYPED_PARAM_FIELD_LENGTH ≤ p.name.length then
    .error (.nameTooLong p.name)
  else
    match p.payload with
    | .int32 v => .ok ⟨p.name, VIR_TYPED_PARAM_INT, .pInt (wrap32s v)⟩
    | .uint32 v => .ok ⟨p.name, VIR_TYPED_PARAM_UINT, .pUInt (v % 2 ^ 32)⟩
    | .int64 v => .ok ⟨p.name, VIR_TYPED_PARAM_LLONG, .pLLong (wrap64s v)⟩
    | .uint64 v => .ok ⟨p.name, VIR_TYPED_PARAM_ULLONG, .pULLong (v % 2 ^ 64)⟩
    | .double bits => .ok ⟨p.name, VIR_TYPED_PARAM_DOUBLE, .pDouble bits⟩
    | .boolean b => .ok ⟨p.name, VIR_TYPED_PARAM_BOOLEAN, .pBool (if b then 1 else 0)⟩
    | .string none => .error (.invalidValue p.name)
    | .string (some s) => .ok ⟨p.name, VIR_TYPED_PARAM_STRING, .pStr (some s)⟩

/-- Modelled from the spec (section 4.1, decode; common.c is outside src/):
inspect the kind tag and copy the matching union arm, reading any nonzero
boolean byte as true; fail with DecodeError on a tag outside the known
range, on a record whose active arm does not match its tag, and on a
string-tagged record carrying no string (the raw invariant of
domain.c:56). -/
def decode1 (r : VirTypedParameter) : Except CodecError TypedValue :=
  if r.type = VIR_TYPED_PARAM_INT then
    match r.value with
    | .pInt v => .ok ⟨r.field, .int32 v⟩
    | _ => .error (.decodeError r.type)
  else if r.type = VIR_TYPED_PARAM_UINT then
    match r.value with
    | .pUInt v => .ok ⟨r.field, .uint32 v⟩
    | _ => .error (.decodeError r.type)
  else if r.type = VIR_TYPED_PARAM_LLONG then
    match r.value with
    | .pLLong v => .ok ⟨r.field, .int64 v⟩
    | _ => .error (.decodeError r.type)
  else if r.type = VIR_TYPED_PARAM_ULLONG then
    match r.value with
    | .pULLong v => .ok ⟨r.field, .uint64 v⟩
    | _ => .error (.decodeError r.type)
  else if r.type = VIR_TYPED_PARAM_DOUBLE then
    match r.value with
    | .pDouble bits => .ok ⟨r.field, .double bits⟩
    | _ => .error (.decodeError r.type)
  else if r.type = VIR_TYPED_PARAM_BOOLEAN then
    match r.value with
    | .pBool v => .ok ⟨r.field, .boolean (v != 0)⟩
    | _ => .error (.decodeError r.type)
  else if r.type = VIR_TYPED_PARAM_STRING then
    match r.value with
    | .pStr (some s) => .ok ⟨r.field, .string (some s)⟩
    | _ => .error (.decodeError r.type)
  else
    .error (.decodeError r.type)

/-- Modelled from the spec: encode a ParameterSet entry by entry, aborting
on the first failing entry. -/
def encodeParams : List TypedValue → Except CodecError (List VirTypedParameter)
  | [] => .ok []
  | p :: rest =>
    match encode1 p with
    | .error e => .error e
    | .ok r =>
      match encodeParams rest with
      | .error e => .error e
      | .ok rs => .ok (r :: rs)

/-- Modelled from the spec: decode a raw array record by record, aborting
on the first failing record, preserving order. -/
def decodeParams : List VirTypedParameter → Except CodecError (List TypedValue)
  | [] => .ok []
  | r :: rest =>
    match decode1 r with
    | .error e => .error e
    | .ok p =>
      match decodeParams rest with
      | .error e => .error e
      | .ok ps => .ok (p :: ps)

/-! ## Helper lemmas -/

/-- The names buffer always has exactly num slots. -/
theorem namesBuffer_length (num : Nat) (written : List String) :
    (namesBuffer num written).length = num := by
  simp [namesBuffer]

/-- The conversion loop with cpu_hash_set over entries with pairwise
distinct field names, starting from a hash whose keys avoid those names,
appends one pair per entry, in order. -/
theorem hash_set_loop_cpu (l : List StatEntry) (h : List (String × RValue))
    (hdisj : ∀ e ∈ l, ∀ p ∈ h, p.1 ≠ e.field)
    (hnd : (l.map StatEntry.field).Nodup) :
    hash_set_loop cpu_hash_set h l
      = .ok (h ++ l.map fun e => (e.field, RValue.vint (e.value : Int))) := by
  induction l generalizing h with
  | nil => simp [hash_set_loop]
  | cons e rest ih =>
    rw [List.map_cons, List.nodup_cons] at hnd
    have hkey : (h.any fun p => p.1 = e.field) = false := by
      simp only [List.any_eq_false, decide_eq_true_eq]
      intro p hp
      exact hdisj e (by simp) p hp
    have hstep : hash_set_loop cpu_hash_set h (e :: rest)
        = hash_set_loop cpu_hash_set
            (rb_hash_aset h e.field (.vint (e.value : Int))) rest := rfl
    have haset : rb_hash_aset h e.field (.vint (e.value : Int))
        = h ++ [(e.field, .vint (e.value : Int))] := by
      rw [rb_hash_aset, hkey]
      rfl
    have hdisj2 : ∀ e2 ∈ rest,
        ∀ p ∈ h ++ [(e.field, RValue.vint (e.value : Int))], p.1 ≠ e2.field := by
      intro e2 he2 p hp
      rcases List.mem_append.1 hp with hph | hpe
      · exact hdisj e2 (List.mem_cons_of_mem e he2) p hph
      · have hp1 : p.1 = e.field := by
          simp only [List.mem_singleton] at hpe
          rw [hpe]
        rw [hp1]
        intro hcontra
        refine hnd.1 ?_
        rw [hcontra]
        exact List.mem_map_of_mem StatEntry.field he2
    rw [hstep, haset, ih (h ++ [(e.field, RValue.vint (e.value : Int))]) hdisj2 hnd.2]
    simp

/-! ## Claim theorems -/

/-- The guarded two-phase queries — the gen_conn_list_names macro
(connect.c:43-46), libvirt_dom_list_snapshots (domain.c:1453-1456) and
internal_get_stats (connect.c:2114-2116) — return an empty result on a
probed count of 0 without performing the second call: the call trace is
exactly the probe. -/
theorem guarded_zero_count_skips_fetch {α : Type} (objs : String)
    (lo so : ListOracle) (empty_hash : α)
    (hash_set : α → StatEntry → Except Unit α) (o : StatsOracle)
    (h1 : lo.numOf = 0) (h2 : so.numOf = 0) (h3 : o.probe = .ok 0) :
    gen_conn_list_names objs lo = (.ok [], [.probe])
    ∧ libvirt_dom_list_snapshots so = (.ok [], [.probe])
    ∧ internal_get_stats empty_hash hash_set o = (.ok empty_hash, [.probe]) := by
  refine ⟨?_, ?_, ?_⟩
  · simp [gen_conn_list_names, h1]
  · simp [libvirt_dom_list_snapshots, h2]
  · simp [internal_get_stats, h3]

/-- C2 fails in the code: libvirt_dom_snapshot_list_children_names has no
zero-count guard, so with the probe reporting 0 children the phase-2 call
is still performed, on a zero-sized buffer — the call trace carries
fetch 0 — both when the subsystem tolerates the zero-sized call and when
it rejects it; the guarded sibling query libvirt_dom_list_snapshots at
the same probed count returns straight after the probe, as do the other
guarded sites (guarded_zero_count_skips_fetch). The claim, and spec
section 4.2 step 3 it quotes, say the second call must never be
performed at a probed count of 0. -/
theorem claim_C2_children_fetch_at_zero :
    libvirt_dom_snapshot_list_children_names ⟨0, .ok []⟩
      = (.ok [], [.probe, .fetch 0])
    ∧ libvirt_dom_snapshot_list_children_names ⟨0, .error ()⟩
      = (.error (.retrieveError "virDomainSnapshotListChildrenNames"),
         [.probe, .fetch 0])
    ∧ libvirt_dom_list_snapshots ⟨0, .ok []⟩ = (.ok [], [.probe]) :=
  ⟨rfl, rfl, rfl⟩

/-- C5: for every two-phase query whose phase-1 probe signals failure —
a negative count from virConnectNumOfX or virDomainSnapshotNum, or an
error name from the get_stats probe — the operation raises
e_RetrieveError immediately and the phase-2 fetch call is never
performed: the call trace is exactly the probe. -/
theorem claim_C5_probe_failure_skips_fetch {α : Type} (objs : String)
    (lo so : ListOracle) (empty_hash : α)
    (hash_set : α → StatEntry → Except Unit α) (o : StatsOracle)
    (errname : String)
    (h1 : lo.numOf < 0) (h2 : so.numOf < 0) (h3 : o.probe = .error errname) :
    gen_conn_list_names objs lo
      = (.error (.retrieveError ("virConnectNumOf" ++ objs)), [.probe])
    ∧ libvirt_dom_list_snapshots so
      = (.error (.retrieveError "virDomainSnapshotNum"), [.probe])
    ∧ internal_get_stats empty_hash hash_set o
      = (.error (.retrieveError errname), [.probe]) := by
  refine ⟨?_, ?_, ?_⟩
  · simp [gen_conn_list_names, h1]
  · simp [libvirt_dom_list_snapshots, h2]
  · simp [internal_get_stats, h3]

/-- Witness for C5 at concrete failing probes. -/
theorem claim_C5_witness :
    gen_conn_list_names "Domains" ⟨-1, .ok []⟩
      = (.error (.retrieveError "virConnectNumOfDomains"), [.probe])
    ∧ libvirt_dom_list_snapshots ⟨-1, .ok []⟩
      = (.error (.retrieveError "virDomainSnapshotNum"), [.probe])
    ∧ internal_get_stats ([] : List (String × RValue)) cpu_hash_set
        ⟨.error "virNodeGetCPUStats", .ok (0, [])⟩
      = (.error (.retrieveError "virNodeGetCPUStats"), [.probe]) :=
  claim_C5_probe_failure_skips_fetch "Domains" ⟨-1, .ok []⟩ ⟨-1, .ok []⟩ []
    cpu_hash_set ⟨.error "virNodeGetCPUStats", .ok (0, [])⟩
    "virNodeGetCPUStats" (by decide) (by decide) rfl

/-- C6: in every run of internal_get_stats — success, phase-2 failure, or
a conversion raising under rb_protect — the params buffer is released on
every exit path: the call trace carries exactly as many free events as
alloc events, and inspection of the trace literals shows each free follows
its alloc before the function returns or the error propagates. -/
theorem claim_C6_stats_buffer_released {α : Type} (empty_hash : α)
    (hash_set : α → StatEntry → Except Unit α) (o : StatsOracle) :
    ((internal_get_stats empty_hash hash_set o).2.countP CallEvent.isAlloc)
      = ((internal_get_stats empty_hash hash_set o).2.countP CallEvent.isFree) := by
  unfold internal_get_stats
  rcases o with ⟨probe, fetchr⟩
  cases probe with
  | error e => rfl
  | ok n =>
    by_cases hn : n = 0
    · subst hn; rfl
    · simp only [if_neg hn]
      rcases fetchr with e | ⟨n2, params⟩
      · rfl
      · cases hloop : hash_set_loop hash_set empty_hash (params.take n2) with
        | error u => simp only [hloop]; rfl
        | ok res => simp only [hloop]; rfl

/-- C8: deregistering an id a second time fails. In the table state
machine (modelled from the spec, the table and gen_call_void living
outside src/), the first deregister of a registered id succeeds and
removes it; the second deregister of the same id returns
UnknownRegistrationError, which libvirt_conn_domain_event_deregister_any
(connect.c:898-903) surfaces as e_RetrieveError. -/
theorem claim_C8_double_deregister (tbl : List Nat) (cid : Nat)
    (hnd : tbl.Nodup) (hmem : cid ∈ tbl) :
    deregisterCallback tbl cid = .ok (tbl.erase cid)
    ∧ deregisterCallback (tbl.erase cid) cid = .error .unknownRegistration
    ∧ libvirt_conn_domain_event_deregister_any (tbl.erase cid) cid
        = .error (.retrieveError "virConnectDomainEventDeregisterAny") := by
  have hno : cid ∉ tbl.erase cid := fun hin =>
    ((List.Nodup.mem_erase_iff hnd).1 hin).1 rfl
  refine ⟨?_, ?_, ?_⟩
  · simp [deregisterCallback, hmem]
  · simp [deregisterCallback, hno]
  · simp [libvirt_conn_domain_event_deregister_any, deregisterCallback, hno]

/-- Witness for C8 on the one-registration table [7]. -/
theorem claim_C8_witness :
    deregisterCallback [7] 7 = .ok (([7] : List Nat).erase 7)
    ∧ deregisterCallback (([7] : List Nat).erase 7) 7
        = .error .unknownRegistration
    ∧ libvirt_conn_domain_event_deregister_any (([7] : List Nat).erase 7) 7
        = .error (.retrieveError "virConnectDomainEventDeregisterAny") :=
  claim_C8_double_deregister [7] 7 (by decide) (by decide)

/-- C10: a registration request with a valid callback but an event-kind
discriminant outside the seven known kinds raises ArgumentError in the
switch default before virConnectDomainEventRegisterAny is reached: the
underlying register call is not made (the Bool is false), so no
registration is created and no registration id is returned. -/
theorem claim_C10_unknown_eventID_rejected (eventID : Int) (cb : RValue)
    (dom : Option Nat) (o : RegisterOracle)
    (hcb : is_symbol_or_proc cb = true)
    (hid : eventID < 0 ∨ 6 < eventID) :
    libvirt_conn_domain_event_register_any eventID cb dom o
      = (.error (.argError "invalid eventID argument"), false) := by
  have hnot : ¬ (eventID = VIR_DOMAIN_EVENT_ID_LIFECYCLE
       ∨ eventID = VIR_DOMAIN_EVENT_ID_REBOOT
       ∨ eventID = VIR_DOMAIN_EVENT_ID_RTC_CHANGE
       ∨ eventID = VIR_DOMAIN_EVENT_ID_WATCHDOG
       ∨ eventID = VIR_DOMAIN_EVENT_ID_IO_ERROR
       ∨ eventID = VIR_DOMAIN_EVENT_ID_IO_ERROR_REASON
       ∨ eventID = VIR_DOMAIN_EVENT_ID_GRAPHICS) := by
    simp only [VIR_DOMAIN_EVENT_ID_LIFECYCLE, VIR_DOMAIN_EVENT_ID_REBOOT,
      VIR_DOMAIN_EVENT_ID_RTC_CHANGE, VIR_DOMAIN_EVENT_ID_WATCHDOG,
      VIR_DOMAIN_EVENT_ID_IO_ERROR, VIR_DOMAIN_EVENT_ID_IO_ERROR_REASON,
      VIR_DOMAIN_EVENT_ID_GRAPHICS]
    omega
  simp [libvirt_conn_domain_event_register_any, hcb, hnot]

/-- Witness for C10: eventID 42 with a Symbol callback. -/
theorem claim_C10_witness :
    libvirt_conn_domain_event_register_any 42 (.vsym "my_handler") none ⟨5⟩
      = (.error (.argError "invalid eventID argument"), false) :=
  claim_C10_unknown_eventID_rejected 42 (.vsym "my_handler") none ⟨5⟩
    (by decide) (by decide)

/-- C4: a dispatched event invokes the user handler with exactly the
positional argument list fixed for its event kind, in the specified
order, for either invocable handler kind (Symbol or Proc): lifecycle 5
arguments, reboot 3, rtc-change 4, watchdog 4, I O error 6, I O error
with reason 7, graphics 8. In particular a watchdog dispatch passes
exactly (connection, domain, actionCode, userData) in that order, and a
graphics dispatch passes as its 7th argument one [type, name] pair per
identity on the raw event, in order. -/
theorem claim_C4_dispatch_argument_lists (conn dom : Nat)
    (event detail action utc_offset phase : Int)
    (src_path dev_alias reason : String) (cb cb_data : RValue)
    (hcb : rb_obj_classname cb = "Symbol" ∨ rb_obj_classname cb = "Proc")
    (laddr raddr : GraphicsAddress) (authScheme : String)
    (subject : List GraphicsSubjectIdentity) :
    domain_event_lifecycle_callback conn dom event detail (.vary [cb, cb_data])
      = (.ok 0, [(cb, [.vconn conn, .vdom dom conn, .vint event, .vint detail,
                       cb_data])])
    ∧ domain_event_reboot_callback conn dom (.vary [cb, cb_data])
      = (.ok 0, [(cb, [.vconn conn, .vdom dom conn, cb_data])])
    ∧ domain_event_rtc_callback conn dom utc_offset (.vary [cb, cb_data])
      = (.ok 0, [(cb, [.vconn conn, .vdom dom conn, .vint utc_offset, cb_data])])
    ∧ domain_event_watchdog_callback conn dom action (.vary [cb, cb_data])
      = (.ok 0, [(cb, [.vconn conn, .vdom dom conn, .vint action, cb_data])])
    ∧ domain_event_io_error_callback conn dom src_path dev_alias action
        (.vary [cb, cb_data])
      = (.ok 0, [(cb, [.vconn conn, .vdom dom conn, .vstr src_path,
                       .vstr dev_alias, .vint action, cb_data])])
    ∧ domain_event_io_error_reason_callback conn dom src_path dev_alias action
        reason (.vary [cb, cb_data])
      = (.ok 0, [(cb, [.vconn conn, .vdom dom conn, .vstr src_path,
                       .vstr dev_alias, .vint action, .vstr reason, cb_data])])
    ∧ domain_event_graphics_callback conn dom phase laddr raddr authScheme
        subject (.vary [cb, cb_data])
      = (.ok 0, [(cb, [.vconn conn, .vdom dom conn, .vint phase,
            graphicsAddressHash laddr, graphicsAddressHash raddr,
            .vstr authScheme,
            RValue.vary (subject.map fun i => RValue.vary [.vstr i.type, .vstr i.name]),
            cb_data])]) := by
  rcases hcb with h | h <;>
    exact ⟨by simp [domain_event_lifecycle_callback, rb_ary_entry, h],
           by simp [domain_event_reboot_callback, rb_ary_entry, h],
           by simp [domain_event_rtc_callback, rb_ary_entry, h],
           by simp [domain_event_watchdog_callback, rb_ary_entry, h],
           by simp [domain_event_io_error_callback, rb_ary_entry, h],
           by simp [domain_event_io_error_reason_callback, rb_ary_entry, h],
           by simp [domain_event_graphics_callback, rb_ary_entry,
                    graphicsSubjectArray, h]⟩

/-- Witness for C4: a Symbol handler, watchdog actionCode 2, userData the
string x, and a one-identity graphics subject. -/
theorem claim_C4_witness :
    domain_event_lifecycle_callback 1 2 5 1 (.vary [.vsym "on_event", .vstr "x"])
      = (.ok 0, [(.vsym "on_event",
          [.vconn 1, .vdom 2 1, .vint 5, .vint 1, .vstr "x"])])
    ∧ domain_event_reboot_callback 1 2 (.vary [.vsym "on_event", .vstr "x"])
      = (.ok 0, [(.vsym "on_event", [.vconn 1, .vdom 2 1, .vstr "x"])])
    ∧ domain_event_rtc_callback 1 2 3600 (.vary [.vsym "on_event", .vstr "x"])
      = (.ok 0, [(.vsym "on_event",
          [.vconn 1, .vdom 2 1, .vint 3600, .vstr "x"])])
    ∧ domain_event_watchdog_callback 1 2 2 (.vary [.vsym "on_event", .vstr "x"])
      = (.ok 0, [(.vsym "on_event",
          [.vconn 1, .vdom 2 1, .vint 2, .vstr "x"])])
    ∧ domain_event_io_error_callback 1 2 "/dev/vda" "vda" 2
        (.vary [.vsym "on_event", .vstr "x"])
      = (.ok 0, [(.vsym "on_event",
          [.vconn 1, .vdom 2 1, .vstr "/dev/vda", .vstr "vda", .vint 2,
           .vstr "x"])])
    ∧ domain_event_io_error_reason_callback 1 2 "/dev/vda" "vda" 2 "enospc"
        (.vary [.vsym "on_event", .vstr "x"])
      = (.ok 0, [(.vsym "on_event",
          [.vconn 1, .vdom 2 1, .vstr "/dev/vda", .vstr "vda", .vint 2,
           .vstr "enospc", .vstr "x"])])
    ∧ domain_event_graphics_callback 1 2 0 ⟨0, "n1", "s1"⟩ ⟨0, "n2", "s2"⟩
        "spice" [⟨"x509dname", "CN=client"⟩] (.vary [.vsym "on_event", .vstr "x"])
      = (.ok 0, [(.vsym "on_event",
          [.vconn 1, .vdom 2 1, .vint 0,
           graphicsAddressHash ⟨0, "n1", "s1"⟩, graphicsAddressHash ⟨0, "n2", "s2"⟩,
           .vstr "spice",
           RValue.vary (([⟨"x509dname", "CN=client"⟩] : List GraphicsSubjectIdentity).map
             fun i => RValue.vary [.vstr i.type, .vstr i.name]),
           .vstr "x"])]) :=
  claim_C4_dispatch_argument_lists 1 2 5 1 2 3600 0 "/dev/vda" "vda" "enospc"
    (.vsym "on_event") (.vstr "x") (Or.inl rfl)
    ⟨0, "n1", "s1"⟩ ⟨0, "n2", "s2"⟩ "spice" [⟨"x509dname", "CN=client"⟩]

/-- C7: a dispatch whose stored handler is neither a Symbol nor a Proc
raises TypeError for that single dispatch: the adapter (shown for the
lifecycle and watchdog kinds) returns the TypeError and performs no
handler invocation, and event delivery leaves the registration table —
and with it every other registration — exactly as it was, the adapter
bodies containing no table mutation. -/
theorem claim_C7_unsupported_handler_kind (conn dom : Nat)
    (event detail action : Int) (cb cb_data : RValue)
    (tbl : List CallbackRegistration) (reg : CallbackRegistration)
    (h1 : rb_obj_classname cb ≠ "Symbol") (h2 : rb_obj_classname cb ≠ "Proc")
    (hreg : reg.passthrough = .vary [cb, cb_data]) :
    domain_event_lifecycle_callback conn dom event detail (.vary [cb, cb_data])
      = (.error (.typeError
          "wrong domain event lifecycle callback (expected Symbol or Proc)"), [])
    ∧ domain_event_watchdog_callback conn dom action (.vary [cb, cb_data])
      = (.error (.typeError
          "wrong domain event watchdog callback (expected Symbol or Proc)"), [])
    ∧ deliver_watchdog_event tbl reg conn dom action
      = (tbl, (.error (.typeError
          "wrong domain event watchdog callback (expected Symbol or Proc)"), [])) := by
  refine ⟨?_, ?_, ?_⟩
  · simp [domain_event_lifecycle_callback, rb_ary_entry, h1, h2]
  · simp [domain_event_watchdog_callback, rb_ary_entry, h1, h2]
  · simp [deliver_watchdog_event, domain_event_watchdog_callback,
          rb_ary_entry, hreg, h1, h2]

/-- Witness for C7: an Integer stored as the handler. -/
theorem claim_C7_witness :
    domain_event_lifecycle_callback 1 2 0 0 (.vary [.vint 9, .vstr "x"])
      = (.error (.typeError
          "wrong domain event lifecycle callback (expected Symbol or Proc)"), [])
    ∧ domain_event_watchdog_callback 1 2 0 (.vary [.vint 9, .vstr "x"])
      = (.error (.typeError
          "wrong domain event watchdog callback (expected Symbol or Proc)"), [])
    ∧ deliver_watchdog_event [⟨3, 0, .vary [.vsym "ok_handler", .vnil]⟩]
        ⟨4, 3, .vary [.vint 9, .vstr "x"]⟩ 1 2 0
      = ([⟨3, 0, .vary [.vsym "ok_handler", .vnil]⟩],
         (.error (.typeError
          "wrong domain event watchdog callback (expected Symbol or Proc)"), [])) :=
  claim_C7_unsupported_handler_kind 1 2 0 0 0 (.vint 9) (.vstr "x")
    [⟨3, 0, .vary [.vsym "ok_handler", .vnil]⟩]
    ⟨4, 3, .vary [.vint 9, .vstr "x"]⟩
    (by simp [rb_obj_classname]) (by simp [rb_obj_classname]) rfl

/-- Counterexample to C1 as stated: in libvirt_dom_list_snapshots with a
probed count of 3 and a phase-2 call that writes 2 names and reports 2
(2 ≤ 3), the array returned to the caller has 3 elements — the phase-1
count, its third slot an uninitialized buffer entry — not the phase-2
count 2. -/
theorem claim_C1_counterexample :
    (libvirt_dom_list_snapshots ⟨3, .ok ["snapA", "snapB"]⟩).1
      = .ok [some "snapA", some "snapB", none]
    ∧ ([some "snapA", some "snapB", (none : Option String)].length = 2) = False := by
  constructor
  · rfl
  · simp

/-- C1 amended: only the stats query truncates to the phase-2 count.
internal_get_stats consumes exactly the first n2 buffer entries when the
second call reports n2 ≤ n1, yielding a hash of exactly n2 entries when
the reported field names are distinct; the name-list queries
(gen_conn_list_names and libvirt_dom_list_snapshots) do not truncate: on
success they return an array whose length is the phase-1 count m,
whatever the second call wrote. -/
theorem claim_C1_amended_phase2_truncation (o : StatsOracle)
    (n1 n2 : Nat) (params : List StatEntry)
    (hp : o.probe = .ok n1) (h0 : n1 ≠ 0) (hf : o.fetch = .ok (n2, params))
    (hle : n2 ≤ n1) (hlen : params.length = n1)
    (hnd : ((params.take n2).map StatEntry.field).Nodup)
    (objs : String) (lo so : ListOracle) (m : Nat) (written : List String)
    (hlo : lo.numOf = (m : Int)) (hso : so.numOf = (m : Int)) (hm0 : m ≠ 0)
    (hlw : lo.fetchResult = .ok written) (hsw : so.fetchResult = .ok written) :
    (internal_get_stats [] cpu_hash_set o).1
      = .ok ((params.take n2).map fun e => (e.field, RValue.vint (e.value : Int)))
    ∧ ((params.take n2).map fun e => (e.field, RValue.vint (e.value : Int))).length = n2
    ∧ (∃ res, (gen_conn_list_names objs lo).1 = .ok res ∧ res.length = m)
    ∧ (∃ res, (libvirt_dom_list_snapshots so).1 = .ok res ∧ res.length = m) := by
  have hlist : hash_set_loop cpu_hash_set [] (params.take n2)
      = .ok ((params.take n2).map fun e => (e.field, RValue.vint (e.value : Int))) := by
    have := hash_set_loop_cpu (params.take n2) []
      (by intro e _ p hp2; cases hp2) hnd
    simpa using this
  refine ⟨?_, ?_, ?_, ?_⟩
  · simp [internal_get_stats, hp, h0, hf, hlist]
  · simp [List.length_take, hlen]
    omega
  · refine ⟨gen_list m (namesBuffer m written), ?_, ?_⟩
    · have hmlt : ¬ ((m : Int) < 0) := Int.not_lt.mpr (Int.natCast_nonneg m)
      simp [gen_conn_list_names, hlo, hlw, hmlt, hm0]
    · simp [gen_list, namesBuffer]
  · refine ⟨gen_list m (namesBuffer m written), ?_, ?_⟩
    · have hmlt : ¬ ((m : Int) < 0) := Int.not_lt.mpr (Int.natCast_nonneg m)
      simp [libvirt_dom_list_snapshots, hso, hsw, hmlt, hm0]
    · simp [gen_list, namesBuffer]

/-- Witness for the amended C1: probe 3, phase-2 reports 2 of 3 slots for
the stats query; probe 3, 2 names written for the list queries. -/
theorem claim_C1_witness :
    (internal_get_stats [] cpu_hash_set
        ⟨.ok 3, .ok (2, [⟨"user", 11⟩, ⟨"kernel", 22⟩, ⟨"", 0⟩])⟩).1
      = .ok (([⟨"user", 11⟩, ⟨"kernel", 22⟩, ⟨"", 0⟩] : List StatEntry).take 2
          |>.map fun e => (e.field, RValue.vint (e.value : Int)))
    ∧ ((([⟨"user", 11⟩, ⟨"kernel", 22⟩, ⟨"", 0⟩] : List StatEntry).take 2
          |>.map fun e => (e.field, RValue.vint (e.value : Int))).length = 2)
    ∧ (∃ res, (gen_conn_list_names "Domains" ⟨3, .ok ["d1", "d2"]⟩).1 = .ok res
          ∧ res.length = 3)
    ∧ (∃ res, (libvirt_dom_list_snapshots ⟨3, .ok ["d1", "d2"]⟩).1 = .ok res
          ∧ res.length = 3) :=
  claim_C1_amended_phase2_truncation
    ⟨.ok 3, .ok (2, [⟨"user", 11⟩, ⟨"kernel", 22⟩, ⟨"", 0⟩])⟩ 3 2
    [⟨"user", 11⟩, ⟨"kernel", 22⟩, ⟨"", 0⟩] rfl (by decide) rfl (by decide)
    (by decide) (by decide) "Domains" ⟨3, .ok ["d1", "d2"]⟩ ⟨3, .ok ["d1", "d2"]⟩
    3 ["d1", "d2"] (by decide) (by decide) (by decide) rfl rfl

/-- Round trip of one entry: encoding a TypedValue whose name fits the
80-byte field, whose string payload is present, and whose numeric payload
is within its native representation range, then decoding the raw record,
recovers the entry exactly. -/
theorem decode1_encode1 (p : TypedValue)
    (hname : p.name.length < VIR_TYPED_PARAM_FIELD_LENGTH)
    (hstr : p.payload ≠ .string none)
    (hrange : p.payload.inRange = true) :
    ∃ r, encode1 p = .ok r ∧ decode1 r = .ok p := by
  rcases p with ⟨name, payload⟩
  have hn : ¬ VIR_TYPED_PARAM_FIELD_LENGTH ≤ name.length := Nat.not_le.mpr hname
  cases payload with
  | int32 v =>
    have hw : wrap32s v = v := by
      simp only [ParamPayload.inRange, Bool.and_eq_true, decide_eq_true_eq] at hrange
      unfold wrap32s
      omega
    refine ⟨⟨name, VIR_TYPED_PARAM_INT, .pInt (wrap32s v)⟩, ?_, ?_⟩
    · simp [encode1, hn]
    · simp [decode1, VIR_TYPED_PARAM_INT, hw]
  | uint32 v =>
    have hw : v % 2 ^ 32 = v := by
      simp only [ParamPayload.inRange, decide_eq_true_eq] at hrange
      exact Nat.mod_eq_of_lt hrange
    refine ⟨⟨name, VIR_TYPED_PARAM_UINT, .pUInt (v % 2 ^ 32)⟩, ?_, ?_⟩
    · simp [encode1, hn]
    · simp [decode1, VIR_TYPED_PARAM_UINT, VIR_TYPED_PARAM_INT, hw]
      omega
  | int64 v =>
    have hw : wrap64s v = v := by
      simp only [ParamPayload.inRange, Bool.and_eq_true, decide_eq_true_eq] at hrange
      unfold wrap64s
      omega
    refine ⟨⟨name, VIR_TYPED_PARAM_LLONG, .pLLong (wrap64s v)⟩, ?_, ?_⟩
    · simp [encode1, hn]
    · simp [decode1, VIR_TYPED_PARAM_LLONG, VIR_TYPED_PARAM_UINT,
            VIR_TYPED_PARAM_INT, hw]
  | uint64 v =>
    have hw : v % 2 ^ 64 = v := by
      simp only [ParamPayload.inRange, decide_eq_true_eq] at hrange
      exact Nat.mod_eq_of_lt hrange
    refine ⟨⟨name, VIR_TYPED_PARAM_ULLONG, .pULLong (v % 2 ^ 64)⟩, ?_, ?_⟩
    · simp [encode1, hn]
    · simp [decode1, VIR_TYPED_PARAM_ULLONG, VIR_TYPED_PARAM_LLONG,
            VIR_TYPED_PARAM_UINT, VIR_TYPED_PARAM_INT, hw]
      omega
  | double bits =>
    refine ⟨⟨name, VIR_TYPED_PARAM_DOUBLE, .pDouble bits⟩, ?_, ?_⟩
    · simp [encode1, hn]
    · simp [decode1, VIR_TYPED_PARAM_DOUBLE, VIR_TYPED_PARAM_ULLONG,
            VIR_TYPED_PARAM_LLONG, VIR_TYPED_PARAM_UINT, VIR_TYPED_PARAM_INT]
  | boolean b =>
    refine ⟨⟨name, VIR_TYPED_PARAM_BOOLEAN, .pBool (if b then 1 else 0)⟩, ?_, ?_⟩
    · simp [encode1, hn]
    · cases b <;>
        simp [decode1, VIR_TYPED_PARAM_BOOLEAN, VIR_TYPED_PARAM_DOUBLE,
              VIR_TYPED_PARAM_ULLONG, VIR_TYPED_PARAM_LLONG,
              VIR_TYPED_PARAM_UINT, VIR_TYPED_PARAM_INT]
  | string s =>
    cases s with
    | none => exact absurd rfl hstr
    | some str =>
      refine ⟨⟨name, VIR_TYPED_PARAM_STRING, .pStr (some str)⟩, ?_, ?_⟩
      · simp [encode1, hn]
      · simp [decode1, VIR_TYPED_PARAM_STRING, VIR_TYPED_PARAM_BOOLEAN,
              VIR_TYPED_PARAM_DOUBLE, VIR_TYPED_PARAM_ULLONG,
              VIR_TYPED_PARAM_LLONG, VIR_TYPED_PARAM_UINT, VIR_TYPED_PARAM_INT]

/-- C3: round-trip identity of the typed-parameter codec. For every
ParameterSet whose entry names fit the bounded 80-byte name capacity,
whose String-kind entries all carry a string, and whose numeric payloads
hold their native representations (the data-model invariant of spec
section 3), decoding the encoding returns the ParameterSet exactly, in
order. -/
theorem claim_C3_codec_roundtrip (P : List TypedValue)
    (hname : ∀ p ∈ P, p.name.length < VIR_TYPED_PARAM_FIELD_LENGTH)
    (hstr : ∀ p ∈ P, p.payload ≠ .string none)
    (hrange : ∀ p ∈ P, p.payload.inRange = true) :
    ∃ raw, encodeParams P = .ok raw ∧ decodeParams raw = .ok P := by
  induction P with
  | nil => exact ⟨[], rfl, rfl⟩
  | cons p rest ih =>
    obtain ⟨r, hr1, hr2⟩ := decode1_encode1 p (hname p (by simp))
      (hstr p (by simp)) (hrange p (by simp))
    obtain ⟨raw, hraw1, hraw2⟩ := ih
      (fun q hq => hname q (List.mem_cons_of_mem p hq))
      (fun q hq => hstr q (List.mem_cons_of_mem p hq))
      (fun q hq => hrange q (List.mem_cons_of_mem p hq))
    exact ⟨r :: raw, by simp [encodeParams, hr1, hraw1],
           by simp [decodeParams, hr2, hraw2]⟩

/-- Witness for C3: a three-entry ParameterSet covering an unsigned, a
negative signed, and a string payload. -/
theorem claim_C3_witness :
    ∃ raw,
      encodeParams [⟨"weight", .uint32 500⟩, ⟨"vcpu_quota", .int64 (-1)⟩,
                    ⟨"label", .string (some "x")⟩] = .ok raw
      ∧ decodeParams raw
          = .ok [⟨"weight", .uint32 500⟩, ⟨"vcpu_quota", .int64 (-1)⟩,
                 ⟨"label", .string (some "x")⟩] :=
  claim_C3_codec_roundtrip
    [⟨"weight", .uint32 500⟩, ⟨"vcpu_quota", .int64 (-1)⟩,
     ⟨"label", .string (some "x")⟩]
    (by decide) (by decide) (by decide)

/-- A raw record decode1 accepts satisfies the struct invariant: the
active union arm matches the type tag and a string-tagged record carries
a string. -/
theorem decode1_wellFormed (r : VirTypedParameter) (p : TypedValue)
    (h : decode1 r = .ok p) : typedParamWellFormed r := by
  rcases r with ⟨field, type, value⟩
  unfold decode1 at h
  dsimp only at h
  cases value with
  | pInt v => split_ifs at h; exact ⟨by assumption, by simp⟩
  | pUInt v => split_ifs at h; exact ⟨by assumption, by simp⟩
  | pLLong v => split_ifs at h; exact ⟨by assumption, by simp⟩
  | pULLong v => split_ifs at h; exact ⟨by assumption, by simp⟩
  | pDouble bits => split_ifs at h; exact ⟨by assumption, by simp⟩
  | pBool v => split_ifs at h; exact ⟨by assumption, by simp⟩
  | pStr s =>
    cases s with
    | none => split_ifs at h
    | some str => split_ifs at h; exact ⟨by assumption, by simp⟩

/-- A raw record encode1 produces satisfies the struct invariant. -/
theorem encode1_wellFormed (p : TypedValue) (r : VirTypedParameter)
    (h : encode1 p = .ok r) : typedParamWellFormed r := by
  rcases p with ⟨name, payload⟩
  unfold encode1 at h
  dsimp only at h
  by_cases hn : VIR_TYPED_PARAM_FIELD_LENGTH ≤ name.length
  · rw [if_pos hn] at h
    exact Except.noConfusion h
  · rw [if_neg hn] at h
    cases payload with
    | int32 v => injection h with h2; subst h2; exact ⟨rfl, by simp⟩
    | uint32 v => injection h with h2; subst h2; exact ⟨rfl, by simp⟩
    | int64 v => injection h with h2; subst h2; exact ⟨rfl, by simp⟩
    | uint64 v => injection h with h2; subst h2; exact ⟨rfl, by simp⟩
    | double bits => injection h with h2; subst h2; exact ⟨rfl, by simp⟩
    | boolean b => injection h with h2; subst h2; exact ⟨rfl, by simp⟩
    | string s =>
      cases s with
      | none => exact Except.noConfusion h
      | some str => injection h with h2; subst h2; exact ⟨rfl, by simp⟩

/-- Every raw record a successful decode consumed satisfies the struct
invariant. -/
theorem decodeParams_wellFormed (raw : List VirTypedParameter)
    (P : List TypedValue) (h : decodeParams raw = .ok P) :
    ∀ r ∈ raw, typedParamWellFormed r := by
  induction raw generalizing P with
  | nil => intro r hr; cases hr
  | cons r0 rest ih =>
    intro r hr
    unfold decodeParams at h
    cases h1 : decode1 r0 with
    | error e => rw [h1] at h; exact Except.noConfusion h
    | ok p0 =>
      rw [h1] at h
      cases h2 : decodeParams rest with
      | error e => rw [h2] at h; exact Except.noConfusion h
      | ok ps =>
        rcases List.mem_cons.1 hr with hr0 | hrrest
        · subst hr0; exact decode1_wellFormed r p0 h1
        · exact ih ps h2 r hrrest

/-- Every raw record a successful encode produced satisfies the struct
invariant. -/
theorem encodeParams_wellFormed (P : List TypedValue)
    (raw : List VirTypedParameter) (h : encodeParams P = .ok raw) :
    ∀ r ∈ raw, typedParamWellFormed r := by
  induction P generalizing raw with
  | nil =>
    intro r hr
    unfold encodeParams at h
    injection h with h2
    rw [← h2] at hr
    cases hr
  | cons p0 rest ih =>
    intro r hr
    unfold encodeParams at h
    cases h1 : encode1 p0 with
    | error e => rw [h1] at h; exact Except.noConfusion h
    | ok r0 =>
      rw [h1] at h
      cases h2 : encodeParams rest with
      | error e => rw [h2] at h; exact Except.noConfusion h
      | ok rs =>
        rw [h2] at h
        injection h with h3
        rw [← h3] at hr
        rcases List.mem_cons.1 hr with hr0 | hrrest
        · subst hr0; exact encode1_wellFormed p0 r h1
        · exact ih rs h2 r hrrest

/-- C9: the union invariant of struct _virTypedParameter is preserved
across the codec. Every raw record a successful decode consumed and every
raw record a successful encode produced has its active union arm matching
its type tag and is never string-tagged with a NULL payload; on the
decoded side the invariant holds by construction, each TypedValue holding
exactly the payload variant of its kind. -/
theorem claim_C9_union_invariant (raw rawQ : List VirTypedParameter)
    (P Q : List TypedValue)
    (hdec : decodeParams raw = .ok P) (henc : encodeParams Q = .ok rawQ) :
    (∀ r ∈ raw, typedParamWellFormed r)
    ∧ (∀ r ∈ rawQ, typedParamWellFormed r) :=
  ⟨decodeParams_wellFormed raw P hdec, encodeParams_wellFormed Q rawQ henc⟩

/-- Witness for C9: one decoded record and one encoded record, both
checked against the struct invariant. -/
theorem claim_C9_witness :
    typedParamWellFormed ⟨"cpu_shares", VIR_TYPED_PARAM_ULLONG, .pULLong 1024⟩
    ∧ typedParamWellFormed ⟨"vcpu_period", VIR_TYPED_PARAM_ULLONG, .pULLong 100000⟩ := by
  have h := claim_C9_union_invariant
    [⟨"cpu_shares", VIR_TYPED_PARAM_ULLONG, .pULLong 1024⟩]
    [⟨"vcpu_period", VIR_TYPED_PARAM_ULLONG, .pULLong 100000⟩]
    [⟨"cpu_shares", .uint64 1024⟩] [⟨"vcpu_period", .uint64 100000⟩]
    (by rfl) (by rfl)
  exact ⟨h.1 _ (by simp), h.2 _ (by simp)⟩

end RubyLibvirt
